import Mathlib

/-!
Verification development for the `User_info` Flask application.

The repository exposes HTTP endpoints over a single `user_info` table
(`user_models/tables.py`), with CRUD handlers and several filtered-read
handlers in `apps/app.py`.  We shallowly embed the store as a list of
records, each handler as a pure function from its request data and the
current store state to a result (HTTP status, response body, emitted
side-effect events, and the resulting store state), and prove the spec
claims about these definitions.
-/

namespace UserApp

/-- JSON-ish values appearing in serialized records: integers, strings,
and the floating-point `exp` column, modelled as an exact rational. -/
inductive Value where
  | i (n : Int)
  | s (str : String)
  | f (q : ℚ)
deriving DecidableEq, Repr

/-- The `UserInfo` model of `user_models/tables.py`: one row of the
`user_info` table.  `EmployeeID` is the primary key.  The `Exp` column is
a SQL `Float`; it is modelled as an exact rational since the handlers
only store and compare it (no arithmetic happens). -/
structure UserInfo where
  EmployeeID : Int
  Age : Int
  Name : String
  Exp : ℚ
  Gender : String
  Dept : String
  Country : String
deriving DecidableEq, Repr

/-- The store state: the rows of the `user_info` table.  The database
enforces uniqueness of the primary key; see `uniqueIds`. -/
abbrev Store := List UserInfo

/-- The primary-key constraint on `user_info`: pairwise distinct
`EmployeeID` values. -/
def uniqueIds (store : Store) : Prop :=
  store.Pairwise (fun a b => a.EmployeeID ≠ b.EmployeeID)

/-- The `serialize_record` function of `apps/app.py`: the instance
`__dict__` of a mapped row minus `_sa_instance_state`, i.e. the mapped
attribute names paired with the row's values. -/
def serialize_record (r : UserInfo) : List (String × Value) :=
  [("EmployeeID", .i r.EmployeeID), ("Age", .i r.Age), ("Name", .s r.Name),
   ("Exp", .f r.Exp), ("Gender", .s r.Gender), ("Dept", .s r.Dept),
   ("Country", .s r.Country)]

/-- The `exclude` list of `exclude_columns` in `apps/app.py`:
`exclude = []  # Specify columns to exclude here`. -/
def exclude : List String := []

/-- The `exclude_columns` function of `apps/app.py`: drops the keys
listed in `exclude` from a serialized record. -/
def exclude_columns (record_dict : List (String × Value)) : List (String × Value) :=
  record_dict.filter (fun kv => !(exclude.contains kv.1))

/-- Side effects a handler fires: logger calls, notifier calls, and a
marker for `session.query(...)` hitting the store. -/
inductive Event where
  | logInfo (msg : String)
  | logWarning (msg : String)
  | logError (msg : String)
  | notifySuccess (subject body : String)
  | notifyFailure (subject body : String)
  | query
deriving DecidableEq, Repr

/-- Whether an event is a notifier call (success or failure). -/
def isNotify : Event → Bool
  | .notifySuccess _ _ => true
  | .notifyFailure _ _ => true
  | _ => false

/-- Number of notifier calls in an event trace. -/
def notifyCount (evs : List Event) : Nat :=
  (evs.filter isNotify).length

/-- Response bodies produced by the handlers: a JSON array of serialized
records, a `{message}` object, or a `{message, error}` object. -/
inductive Body where
  | records (rs : List (List (String × Value)))
  | message (msg : String)
  | messageError (msg err : String)
deriving DecidableEq, Repr

/-- Result of one handler invocation: HTTP status, response body, the
side-effect events in order, and the store state afterwards. -/
structure HResult where
  status : Nat
  body : Body
  events : List Event
  store : Store
deriving DecidableEq, Repr

/-- The array of serialized records in a response body (empty for
message bodies). -/
def responseRecords (h : HResult) : List (List (String × Value)) :=
  match h.body with
  | .records rs => rs
  | _ => []

/-- Python `repr` of a serialized value, as interpolated into f-string
notification messages. -/
def pyReprValue : Value → String
  | .i n => toString n
  | .s str => "\x27" ++ str ++ "\x27"
  | .f q => toString q

/-- Python `repr` of one key/value pair of a serialized record. -/
def pyReprPair (kv : String × Value) : String :=
  "\x27" ++ kv.1 ++ "\x27: " ++ pyReprValue kv.2

/-- Python `repr` of a serialized record (a dict). -/
def pyReprDict (d : List (String × Value)) : String :=
  "\x7b" ++ String.intercalate ", " (d.map pyReprPair) ++ "\x7d"

/-- Python `repr` of a list of serialized records, as interpolated into
f-strings like the one in `get_emp_name`. -/
def pyRepr (rs : List (List (String × Value))) : String :=
  "[" ++ String.intercalate ", " (rs.map pyReprDict) ++ "]"

/-- PostgreSQL `LIKE` pattern matching over characters, as used by the
`ilike` filter in `get_users_by_name`: `%` matches any sequence (tried
against every suffix of the remaining string), `_` matches any single
character, and backslash escapes the following pattern character. -/
def likeMatch (p s : List Char) : Bool :=
  match p, s with
  | [], s => s.isEmpty
  | c :: p, s =>
    if c = '%' then
      s.tails.any (fun t => likeMatch p t)
    else if c = '\\' then
      match p, s with
      | c2 :: p', d :: s' => c2 == d && likeMatch p' s'
      | _, _ => false
    else if c = '_' then
      match s with
      | [] => false
      | _ :: s' => likeMatch p s'
    else
      match s with
      | [] => false
      | d :: s' => c == d && likeMatch p s'

/-- PostgreSQL `ILIKE`: case-insensitive `LIKE`, modelled by lowering
both the pattern and the string before matching. -/
def ilike (pat s : String) : Bool :=
  likeMatch (pat.toList.map Char.toLower) (s.toList.map Char.toLower)

/-- The spec's name-filter predicate: `q` occurs in `s` as a
case-insensitive substring. -/
def containsCI (q s : String) : Bool :=
  decide ((q.toList.map Char.toLower) <:+: (s.toList.map Char.toLower))

/-- Request body of `POST /create_user`: all seven fields are required
(`data['emp_id']` etc. raise on absence). -/
structure CreateData where
  emp_id : Int
  age : Int
  name : String
  exp : ℚ
  gender : String
  dept : String
  country : String
deriving DecidableEq, Repr

/-- The `new_user = UserInfo(...)` construction inside `create_user`. -/
def toUser (data : CreateData) : UserInfo :=
  ⟨data.emp_id, data.age, data.name, data.exp, data.gender, data.dept, data.country⟩

/-- Request body of `PUT /update_user/<emp_id>`: any subset of the six
non-key fields (`data.get(key, current)` keeps the current value for an
absent key). -/
structure UpdateData where
  age : Option Int
  name : Option String
  exp : Option ℚ
  gender : Option String
  dept : Option String
  country : Option String
deriving DecidableEq, Repr

/-- The field assignments of `update_user`:
`user.Age = data.get('age', user.Age)` and so on; `EmployeeID` is never
assigned. -/
def applyUpdate (data : UpdateData) (u : UserInfo) : UserInfo :=
  { u with
    Age := data.age.getD u.Age
    Name := data.name.getD u.Name
    Exp := data.exp.getD u.Exp
    Gender := data.gender.getD u.Gender
    Dept := data.dept.getD u.Dept
    Country := data.country.getD u.Country }

/-- Committing the mutation of the row returned by `.first()`: the first
record whose `EmployeeID` matches is replaced, the rest are unchanged. -/
def replaceFirst (store : Store) (emp_id : Int) (u' : UserInfo) : Store :=
  match store with
  | [] => []
  | r :: rest =>
    if r.EmployeeID == emp_id then u' :: rest else r :: replaceFirst rest emp_id u'

/-- Handler for `GET /get-experience-less-than-5`
(`get_experience_less_than_5` in `apps/app.py`): filters
`UserInfo.Exp < 5`. -/
def get_experience_less_than_5 (store : Store) : HResult :=
  let result := store.filter (fun r => decide (r.Exp < 5))
  let response := result.map serialize_record
  { status := 200
    body := .records response
    events :=
      [.logInfo "Entering get_experience_less_than_5 function",
       .query,
       .logInfo ("Total records fetched: " ++ toString response.length),
       .notifySuccess "User Experience Records"
         "Users with less than 5 years of experience have been fetched successfully.",
       .logInfo "Exiting get_experience_less_than_5 function"]
    store := store }

/-- Handler for `GET /get-users-from-india` (`get_users_from_india`):
filters `UserInfo.Country == 'INDIA'`. -/
def get_users_from_india (store : Store) : HResult :=
  let result := store.filter (fun r => r.Country == "INDIA")
  let response := result.map serialize_record
  { status := 200
    body := .records response
    events :=
      [.logInfo "Entering get_users_from_india function",
       .query,
       .logInfo ("Total records fetched: " ++ toString response.length),
       .notifySuccess "User Records from India"
         "Users from India have been fetched successfully.",
       .logInfo "Exiting get_users_from_india function"]
    store := store }

/-- Handler for `GET /get-users-by-gender` (`get_users_by_gender`).
`request.args.get('gender')` yields `None` when absent; `if not gender`
also treats the empty string as missing and returns 400 before the
session is opened and before the entry log. -/
def get_users_by_gender (gender : Option String) (store : Store) : HResult :=
  match gender with
  | none =>
    { status := 400, body := .message "Gender parameter is required",
      events := [], store := store }
  | some g =>
    if g.isEmpty then
      { status := 400, body := .message "Gender parameter is required",
        events := [], store := store }
    else
      let result := store.filter (fun r => r.Gender == g)
      let response := result.map serialize_record
      { status := 200
        body := .records response
        events :=
          [.logInfo "Entering get_users_by_gender function",
           .query,
           .logInfo ("Total records fetched: " ++ toString response.length),
           .notifySuccess "User Records by Gender"
             ("Users with gender " ++ g ++ " have been fetched successfully."),
           .logInfo "Exiting get_users_by_gender function"]
        store := store }

/-- Handler for `GET /get-users-by-name` (`get_users_by_name`): filters
`UserInfo.Name.ilike(f'%{name}%')`, with the raw query string
interpolated into the pattern unescaped.  Missing or empty `name`
returns 400 before the session is opened. -/
def get_users_by_name (name : Option String) (store : Store) : HResult :=
  match name with
  | none =>
    { status := 400, body := .message "Name parameter is required",
      events := [], store := store }
  | some n =>
    if n.isEmpty then
      { status := 400, body := .message "Name parameter is required",
        events := [], store := store }
    else
      let result := store.filter (fun r => ilike ("%" ++ n ++ "%") r.Name)
      let response := result.map serialize_record
      { status := 200
        body := .records response
        events :=
          [.logInfo "Entering get_users_by_name function",
           .query,
           .logInfo ("Total records fetched: " ++ toString response.length),
           .notifySuccess "User Records by Name"
             ("Users with name matching \x27" ++ n ++ "\x27 have been fetched successfully."),
           .logInfo "Exiting get_users_by_name function"]
        store := store }

/-- Handler for `GET /get-emp-name` (`get_emp_name`): no parameter
validation; filters `UserInfo.Name == emp_name`.  When the parameter is
absent, SQLAlchemy renders `name IS NULL`, which matches no stored row
(every row here carries a string name). -/
def get_emp_name (emp_name : Option String) (store : Store) : HResult :=
  let result := store.filter (fun r =>
    match emp_name with
    | none => false
    | some v => r.Name == v)
  let response := result.map serialize_record
  { status := 200
    body := .records response
    events :=
      [.logInfo "Entering get_emp_name function",
       .query,
       .logInfo ("Total records fetched: " ++ toString response.length),
       .notifySuccess "User Employee Name Record"
         ("User Employee Name" ++ pyRepr response ++ " Records has been Fetched successfully."),
       .logInfo "Exiting get_emp_name function"]
    store := store }

/-- Handler for `GET /get_all_records` (`get_records`): returns every
record serialized. -/
def get_records (store : Store) : HResult :=
  let response := store.map serialize_record
  { status := 200
    body := .records response
    events :=
      [.logInfo "Entering get_records function",
       .query,
       .logInfo "Fetched all user records successfully",
       .notifySuccess "Records fetched"
         "All user records have been successfully fetched.",
       .logInfo "Exiting get_records function"]
    store := store }

/-- Handler for `GET /get_custom_columns` (`get_custom_columns`):
returns every record serialized with `exclude_columns` applied. -/
def get_custom_columns (store : Store) : HResult :=
  let response := store.map (fun user => exclude_columns (serialize_record user))
  { status := 200
    body := .records response
    events :=
      [.logInfo "Entering get_custom_columns function",
       .query,
       .logInfo "Fetched custom columns successfully",
       .notifySuccess "Custom columns fetched"
         "User records with custom columns excluded have been successfully fetched.",
       .logInfo "Exiting get_custom_columns function"]
    store := store }

/-- Error text of the PostgreSQL `IntegrityError` raised at commit when
the primary key `emp_id` already exists. -/
def duplicateKeyMsg : String :=
  "duplicate key value violates unique constraint user_info_pkey"

/-- Handler for `POST /create_user` (`create_user`): adds the new row
and commits.  When a row with the same `EmployeeID` already exists, the
commit raises, the session is rolled back (store unchanged), and a 500
response is returned. -/
def create_user (data : CreateData) (store : Store) : HResult :=
  let new_user := toUser data
  if store.any (fun r => r.EmployeeID == data.emp_id) then
    { status := 500
      body := .messageError "Error creating user" duplicateKeyMsg
      events :=
        [.logInfo "Entering create_user function",
         .logError ("Error creating user: " ++ duplicateKeyMsg),
         .notifyFailure "Error creating user" duplicateKeyMsg,
         .logInfo "Exiting create_user function"]
      store := store }
  else
    { status := 201
      body := .message "User created successfully"
      events :=
        [.logInfo "Entering create_user function",
         .logInfo ("User " ++ data.name ++ " created successfully"),
         .notifySuccess "User created"
           ("User " ++ data.name ++ " has been created successfully."),
         .logInfo "Exiting create_user function"]
      store := store ++ [new_user] }

/-- Handler for `PUT /update_user/<int:emp_id>` (`update_user`): looks
up `.first()` by `EmployeeID`; 404 (with a warning log and no notifier
call) when absent, otherwise applies `data.get` field-by-field and
commits. -/
def update_user (emp_id : Int) (data : UpdateData) (store : Store) : HResult :=
  match store.find? (fun r => r.EmployeeID == emp_id) with
  | none =>
    { status := 404
      body := .message "User not found"
      events :=
        [.logInfo "Entering update_user function",
         .query,
         .logWarning ("User with ID " ++ toString emp_id ++ " not found"),
         .logInfo "Exiting update_user function"]
      store := store }
  | some user =>
    let updated := applyUpdate data user
    { status := 200
      body := .message "User updated successfully"
      events :=
        [.logInfo "Entering update_user function",
         .query,
         .logInfo ("User " ++ toString emp_id ++ " updated successfully"),
         .notifySuccess "User updated"
           ("User with ID " ++ toString emp_id ++ " has been updated successfully."),
         .logInfo "Exiting update_user function"]
      store := replaceFirst store emp_id updated }

/-- Handler for `DELETE /delete_user/<int:emp_id>` (`delete_user`):
looks up `.first()` by `EmployeeID`; 404 (with a warning log and no
notifier call) when absent, otherwise deletes that row and commits. -/
def delete_user (emp_id : Int) (store : Store) : HResult :=
  match store.find? (fun r => r.EmployeeID == emp_id) with
  | none =>
    { status := 404
      body := .message "User not found"
      events :=
        [.logInfo "Entering delete_user function",
         .query,
         .logWarning ("User with ID " ++ toString emp_id ++ " not found"),
         .logInfo "Exiting delete_user function"]
      store := store }
  | some _ =>
    { status := 200
      body := .message "User deleted successfully"
      events :=
        [.logInfo "Entering delete_user function",
         .query,
         .logInfo ("User " ++ toString emp_id ++ " deleted successfully"),
         .notifySuccess "User deleted"
           ("User with ID " ++ toString emp_id ++ " has been deleted successfully."),
         .logInfo "Exiting delete_user function"]
      store := store.eraseP (fun r => r.EmployeeID == emp_id) }

/-- Handler for `GET /get_records` (`fetch_records`): returns every
record serialized. -/
def fetch_records (store : Store) : HResult :=
  let response := store.map serialize_record
  { status := 200
    body := .records response
    events :=
      [.logInfo "Entering fetch_records function",
       .query,
       .logInfo ("Total records fetched: " ++ toString response.length),
       .notifySuccess "User Record"
         ("User" ++ pyRepr response ++ " Records has been Fetched successfully."),
       .logInfo "Exiting fetch_records function"]
    store := store }

/-- Handler for `GET /get-emp-id` (`get_single_record`): no parameter
validation; filters `UserInfo.EmployeeID == emp_id`.  The parameter is
the numeric value of the query string when present; when absent,
SQLAlchemy renders `emp_id IS NULL`, which matches no row (the primary
key is never null). -/
def get_single_record (emp_id : Option Int) (store : Store) : HResult :=
  let result := store.filter (fun r =>
    match emp_id with
    | none => false
    | some k => r.EmployeeID == k)
  let response := result.map serialize_record
  { status := 200
    body := .records response
    events :=
      [.logInfo "Entering get_single_record function",
       .query,
       .logInfo ("Total records fetched: " ++ toString response.length),
       .notifySuccess "User Single Record"
         ("User" ++ pyRepr response ++ " Records has been Fetched successfully."),
       .logInfo "Exiting get_single_record function"]
    store := store }

/-- Handler for `GET /get-kids` (`get_kids`): filters
`UserInfo.Age < 15`. -/
def get_kids (store : Store) : HResult :=
  let result := store.filter (fun r => decide (r.Age < 15))
  let response := result.map serialize_record
  { status := 200
    body := .records response
    events :=
      [.logInfo "Entering get_kids function",
       .query,
       .logInfo ("Total records fetched: " ++ toString response.length),
       .notifySuccess "User kids Record"
         ("User Kids " ++ pyRepr response ++ " Records has been Fetched successfully."),
       .logInfo "Exiting get_kids function"]
    store := store }

/-! ## Helper lemmas -/

lemma likeMatch_pct_iff (p s : List Char) :
    likeMatch ('%' :: p) s = true ↔ ∃ t, t <:+ s ∧ likeMatch p t = true := by
  rw [likeMatch.eq_def]
  simp [List.any_eq_true, List.mem_tails]

lemma likeMatch_pct_nil (s : List Char) : likeMatch ['%'] s = true := by
  rw [likeMatch_pct_iff]
  exact ⟨[], ⟨s, by simp⟩, rfl⟩

lemma cons_pfx_iff (c d : Char) (q s : List Char) :
    c :: q <+: d :: s ↔ c = d ∧ q <+: s := by
  constructor
  · rintro ⟨t, ht⟩
    injection ht with h1 h2
    exact ⟨h1, t, h2⟩
  · rintro ⟨rfl, t, rfl⟩
    exact ⟨t, rfl⟩

lemma likeMatch_lit (q : List Char) (hq : ∀ c ∈ q, c ≠ '%' ∧ c ≠ '_' ∧ c ≠ '\\') :
    ∀ s : List Char, (likeMatch (q ++ ['%']) s = true ↔ q <+: s) := by
  induction q with
  | nil =>
    intro s
    constructor
    · intro _
      exact ⟨s, rfl⟩
    · intro _
      exact likeMatch_pct_nil s
  | cons c q ih =>
    intro s
    obtain ⟨h1, h2, h3⟩ := hq c (by simp)
    have ih' := ih (fun c' hc' => hq c' (by simp [hc']))
    rw [List.cons_append, likeMatch.eq_def]
    simp only []
    rw [if_neg h1, if_neg h3, if_neg h2]
    cases s with
    | nil =>
      constructor
      · intro h
        simp at h
      · rintro ⟨t, ht⟩
        simp at ht
    | cons d s' =>
      rw [cons_pfx_iff]
      simp only [Bool.and_eq_true, beq_iff_eq, ih' s']

lemma likeMatch_mid (q : List Char) (hq : ∀ c ∈ q, c ≠ '%' ∧ c ≠ '_' ∧ c ≠ '\\')
    (s : List Char) :
    likeMatch ('%' :: (q ++ ['%'])) s = true ↔ q <:+: s := by
  rw [likeMatch_pct_iff]
  constructor
  · rintro ⟨t, ⟨u, rfl⟩, hm⟩
    obtain ⟨v, rfl⟩ := (likeMatch_lit q hq t).mp hm
    exact ⟨u, v, by simp⟩
  · rintro ⟨u, v, rfl⟩
    refine ⟨q ++ v, ⟨u, by simp⟩, ?_⟩
    exact (likeMatch_lit q hq (q ++ v)).mpr ⟨v, rfl⟩

lemma ofNat_add32_notMeta (n : Nat) (hl : 65 ≤ n) (hu : n ≤ 90) :
    Char.ofNat (n + 32) ≠ '%' ∧ Char.ofNat (n + 32) ≠ '_' ∧ Char.ofNat (n + 32) ≠ '\\' := by
  interval_cases n <;> exact ⟨by decide, by decide, by decide⟩

lemma toLower_notMeta (c : Char) (h1 : c ≠ '%') (h2 : c ≠ '_') (h3 : c ≠ '\\') :
    Char.toLower c ≠ '%' ∧ Char.toLower c ≠ '_' ∧ Char.toLower c ≠ '\\' := by
  have hdef : Char.toLower c =
      if c.toNat ≥ 65 ∧ c.toNat ≤ 90 then Char.ofNat (c.toNat + 32) else c := rfl
  by_cases h : c.toNat ≥ 65 ∧ c.toNat ≤ 90
  · rw [hdef, if_pos h]
    exact ofNat_add32_notMeta c.toNat h.1 h.2
  · rw [hdef, if_neg h]
    exact ⟨h1, h2, h3⟩

lemma lower_meta_free (q : List Char) (hq : ∀ c ∈ q, c ≠ '%' ∧ c ≠ '_' ∧ c ≠ '\\') :
    ∀ c ∈ q.map Char.toLower, c ≠ '%' ∧ c ≠ '_' ∧ c ≠ '\\' := by
  intro c hc
  obtain ⟨a, ha, rfl⟩ := List.mem_map.mp hc
  obtain ⟨g1, g2, g3⟩ := hq a ha
  exact toLower_notMeta a g1 g2 g3

lemma ilike_pct_iff (q nm : String) (hq : ∀ c ∈ q.toList, c ≠ '%' ∧ c ≠ '_' ∧ c ≠ '\\') :
    (ilike ("%" ++ q ++ "%") nm = true ↔ containsCI q nm = true) := by
  have hlist : ("%" ++ q ++ "%").toList = '%' :: (q.toList ++ ['%']) := by
    simp [String.toList, String.data_append]
  have hpct : Char.toLower '%' = '%' := by decide
  rw [ilike, containsCI, hlist]
  rw [List.map_cons, List.map_append, hpct]
  rw [show List.map Char.toLower ['%'] = ['%'] from by simp [hpct]]
  rw [likeMatch_mid (q.toList.map Char.toLower) (lower_meta_free q.toList hq)]
  rw [decide_eq_true_eq]

lemma serialize_record_inj : Function.Injective serialize_record := by
  intro a b h
  simp only [serialize_record, List.cons.injEq, Prod.mk.injEq, Value.i.injEq, Value.s.injEq,
    Value.f.injEq, and_true, true_and] at h
  cases a
  cases b
  simp_all

lemma find_unique (store : Store) (k : Int) (r : UserInfo)
    (hwf : uniqueIds store) (hr : r ∈ store) (hk : r.EmployeeID = k) :
    store.find? (fun s => s.EmployeeID == k) = some r := by
  induction store with
  | nil => cases hr
  | cons a l ih =>
    obtain ⟨hhead, htail⟩ := List.pairwise_cons.mp hwf
    by_cases ha : a.EmployeeID = k
    · rcases List.mem_cons.mp hr with rfl | hr'
      · exact List.find?_cons_of_pos l (by simp [ha])
      · exact absurd (ha.trans hk.symm) (hhead r hr')
    · rcases List.mem_cons.mp hr with rfl | hr'
      · exact absurd hk ha
      · rw [List.find?_cons_of_neg l (by simp [ha])]
        exact ih htail hr'

lemma mem_replaceFirst (store : Store) (k : Int) (u' s : UserInfo)
    (hs : s ∈ store) (hne : s.EmployeeID ≠ k) : s ∈ replaceFirst store k u' := by
  induction store with
  | nil => cases hs
  | cons a l ih =>
    rw [replaceFirst]
    by_cases ha : a.EmployeeID = k
    · rw [if_pos (by simp [ha])]
      rcases List.mem_cons.mp hs with rfl | hs'
      · exact absurd ha hne
      · exact List.mem_cons_of_mem _ hs'
    · rw [if_neg (by simp [ha])]
      rcases List.mem_cons.mp hs with rfl | hs'
      · exact List.mem_cons_self _ _
      · exact List.mem_cons_of_mem _ (ih hs')

lemma replaceFirst_mem (store : Store) (k : Int) (u' : UserInfo)
    (h : ∃ r ∈ store, r.EmployeeID = k) : u' ∈ replaceFirst store k u' := by
  induction store with
  | nil => obtain ⟨r, hr, _⟩ := h; cases hr
  | cons a l ih =>
    rw [replaceFirst]
    by_cases ha : a.EmployeeID = k
    · rw [if_pos (by simp [ha])]
      exact List.mem_cons_self _ _
    · rw [if_neg (by simp [ha])]
      obtain ⟨r, hr, hrk⟩ := h
      rcases List.mem_cons.mp hr with rfl | hr'
      · exact absurd hrk ha
      · exact List.mem_cons_of_mem _ (ih ⟨r, hr', hrk⟩)

lemma eraseP_id_free (store : Store) (k : Int) (hwf : uniqueIds store) :
    ∀ s ∈ store.eraseP (fun r => r.EmployeeID == k), s.EmployeeID ≠ k := by
  induction store with
  | nil => simp
  | cons a l ih =>
    obtain ⟨hhead, htail⟩ := List.pairwise_cons.mp hwf
    intro s hs
    by_cases ha : a.EmployeeID = k
    · rw [List.eraseP_cons_of_pos (by simp [ha])] at hs
      intro hk
      exact hhead s hs (ha.trans hk.symm)
    · rw [List.eraseP_cons_of_neg (by simp [ha])] at hs
      rcases List.mem_cons.mp hs with rfl | hs'
      · exact ha
      · exact ih htail s hs'

lemma exclude_columns_eq (d : List (String × Value)) : exclude_columns d = d := by
  simp [exclude_columns, exclude]

/-! ## Concrete fixtures used by witnesses and counterexamples -/

/-- A concrete stored record (the spec's §8 example employee). -/
def sam : UserInfo := ⟨1, 29, "Sam", 7/2, "M", "Eng", "INDIA"⟩

/-- A concrete stored record named Alice. -/
def alice : UserInfo := ⟨2, 30, "Alice", 6, "F", "Sales", "USA"⟩

/-- A concrete stored record named Bob. -/
def bob : UserInfo := ⟨3, 40, "Bob", 10, "M", "HR", "UK"⟩

/-- A create request reusing Sam's employee_id 1. -/
def samDup : CreateData := ⟨1, 25, "SamNew", 1, "M", "Ops", "INDIA"⟩

/-- An update body with no fields supplied. -/
def ud0 : UpdateData := ⟨none, none, none, none, none, none⟩

/-- An update body containing only an age, like `{age: 31}`. -/
def ageOnly (a : Int) : UpdateData := ⟨some a, none, none, none, none, none⟩

/-! ## Claims -/

/-- C1: for every store state, creating a record whose employee_id already
exists fails with a 500 response (never 201) and leaves the store — in
particular the previously stored record with that employee_id — unchanged. -/
theorem create_user_duplicate_rejected (data : CreateData) (store : Store)
    (h : ∃ r ∈ store, r.EmployeeID = data.emp_id) :
    (create_user data store).status = 500 ∧ (create_user data store).status ≠ 201 ∧
    (create_user data store).store = store := by
  obtain ⟨r, hr, hk⟩ := h
  have hany : store.any (fun r => r.EmployeeID == data.emp_id) = true :=
    List.any_eq_true.mpr ⟨r, hr, by simp [hk]⟩
  simp [create_user, hany]

/-- C1 witness: the duplicate-create theorem applied to a store holding Sam
and a create request reusing Sam's employee_id. -/
theorem create_user_duplicate_rejected_witness :
    (∃ r ∈ [sam], r.EmployeeID = samDup.emp_id) ∧
    ((create_user samDup [sam]).status = 500 ∧ (create_user samDup [sam]).status ≠ 201 ∧
     (create_user samDup [sam]).store = [sam]) :=
  ⟨by decide, create_user_duplicate_rejected samDup [sam] (by decide)⟩

/-- C2: updating a stored record r (in a store satisfying the primary-key
constraint) with a body containing only an age succeeds with 200, and the
resulting store contains a record with r's employee_id whose age is the new
value and whose every other field equals r's prior value. -/
theorem update_user_age_only (emp_id : Int) (a : Int) (store : Store) (r : UserInfo)
    (hwf : uniqueIds store) (hr : r ∈ store) (hk : r.EmployeeID = emp_id) :
    (update_user emp_id (ageOnly a) store).status = 200 ∧
    ∃ r' ∈ (update_user emp_id (ageOnly a) store).store,
      r'.EmployeeID = r.EmployeeID ∧ r'.Age = a ∧ r'.Name = r.Name ∧ r'.Exp = r.Exp ∧
      r'.Gender = r.Gender ∧ r'.Dept = r.Dept ∧ r'.Country = r.Country := by
  have hf := find_unique store emp_id r hwf hr hk
  refine ⟨?_, ?_⟩
  · simp [update_user, hf]
  · simp only [update_user, hf]
    refine ⟨applyUpdate (ageOnly a) r, ?_, ?_⟩
    · exact replaceFirst_mem store emp_id _ ⟨r, hr, hk⟩
    · simp [applyUpdate, ageOnly]

/-- C2 witness: the age-only update theorem applied to a two-record store,
updating Sam's age to 31. -/
theorem update_user_age_only_witness :
    uniqueIds [sam, alice] ∧ sam ∈ [sam, alice] ∧ sam.EmployeeID = 1 ∧
    ((update_user 1 (ageOnly 31) [sam, alice]).status = 200 ∧
     ∃ r' ∈ (update_user 1 (ageOnly 31) [sam, alice]).store,
       r'.EmployeeID = sam.EmployeeID ∧ r'.Age = 31 ∧ r'.Name = sam.Name ∧ r'.Exp = sam.Exp ∧
       r'.Gender = sam.Gender ∧ r'.Dept = sam.Dept ∧ r'.Country = sam.Country) :=
  ⟨by simp [uniqueIds]; decide, by simp, by decide,
   update_user_age_only 1 31 [sam, alice] sam (by simp [uniqueIds]; decide) (by simp) (by decide)⟩

/-- C4: for every store state, the experience filter endpoint answers 200
and returns exactly the serialized subset of stored records whose
experience is strictly less than 5, and no record whose experience is at
least 5. -/
theorem experience_filter_exact (store : Store) :
    (get_experience_less_than_5 store).status = 200 ∧
    (∀ r ∈ store, r.Exp < 5 →
      serialize_record r ∈ responseRecords (get_experience_less_than_5 store)) ∧
    (∀ r ∈ store, 5 ≤ r.Exp →
      serialize_record r ∉ responseRecords (get_experience_less_than_5 store)) ∧
    (∀ d ∈ responseRecords (get_experience_less_than_5 store),
      ∃ r ∈ store, r.Exp < 5 ∧ d = serialize_record r) := by
  refine ⟨rfl, ?_, ?_, ?_⟩
  · intro r hr hlt
    simp only [get_experience_less_than_5, responseRecords, List.mem_map, List.mem_filter,
      decide_eq_true_eq]
    exact ⟨r, ⟨hr, hlt⟩, rfl⟩
  · intro r hr hge hmem
    simp only [get_experience_less_than_5, responseRecords, List.mem_map, List.mem_filter,
      decide_eq_true_eq] at hmem
    obtain ⟨r', ⟨_, hlt'⟩, heq⟩ := hmem
    rw [serialize_record_inj heq] at hlt'
    exact absurd hge (not_le.mpr hlt')
  · intro d hd
    simp only [get_experience_less_than_5, responseRecords, List.mem_map, List.mem_filter,
      decide_eq_true_eq] at hd
    obtain ⟨r, ⟨hr, hlt⟩, rfl⟩ := hd
    exact ⟨r, hr, hlt, rfl⟩

/-- C6: updating an employee_id that no stored record carries returns 404
and leaves the store unchanged: nothing is created and nothing is
modified, so afterwards there is still no record with that id. -/
theorem update_user_not_found (emp_id : Int) (data : UpdateData) (store : Store)
    (h : ∀ r ∈ store, r.EmployeeID ≠ emp_id) :
    (update_user emp_id data store).status = 404 ∧
    (update_user emp_id data store).store = store ∧
    ∀ r ∈ (update_user emp_id data store).store, r.EmployeeID ≠ emp_id := by
  have hf : store.find? (fun r => r.EmployeeID == emp_id) = none :=
    List.find?_eq_none.mpr (fun x hx => by simp [h x hx])
  refine ⟨?_, ?_, ?_⟩
  · simp [update_user, hf]
  · simp [update_user, hf]
  · simp only [update_user, hf]
    exact h

/-- C6 witness: the not-found update theorem applied to a store holding
only Alice (id 2) with the absent id 1. -/
theorem update_user_not_found_witness :
    (∀ r ∈ [alice], r.EmployeeID ≠ 1) ∧
    ((update_user 1 ud0 [alice]).status = 404 ∧
     (update_user 1 ud0 [alice]).store = [alice] ∧
     ∀ r ∈ (update_user 1 ud0 [alice]).store, r.EmployeeID ≠ 1) :=
  ⟨by decide, update_user_not_found 1 ud0 [alice] (by decide)⟩

/-- C5 counterexample: the query string is interpolated unescaped into the
`ILIKE` pattern, so for the query `name=%` the record named Bob is
returned although `%` is not a substring of `Bob` (case-insensitively or
otherwise). -/
theorem name_filter_counterexample :
    serialize_record bob ∈ responseRecords (get_users_by_name (some "%") [bob]) ∧
    containsCI "%" bob.Name = false ∧ ("%" : String) ≠ "" := by
  refine ⟨by decide, by decide, by decide⟩

/-- C5 (amended): for every store state and every non-empty query string q
containing no SQL LIKE metacharacter (percent, underscore, backslash), the
name filter endpoint answers 200 and returns exactly the stored records
whose name contains q as a case-insensitive substring. -/
theorem name_filter_ci_substring (q : String) (store : Store)
    (hq : q ≠ "")
    (hm : ∀ c ∈ q.toList, c ≠ '%' ∧ c ≠ '_' ∧ c ≠ '\\') :
    (get_users_by_name (some q) store).status = 200 ∧
    (∀ r : UserInfo,
      (serialize_record r ∈ responseRecords (get_users_by_name (some q) store) ↔
        r ∈ store ∧ containsCI q r.Name = true)) ∧
    (∀ d ∈ responseRecords (get_users_by_name (some q) store),
      ∃ r ∈ store, containsCI q r.Name = true ∧ d = serialize_record r) := by
  have hne : q.isEmpty = false := by
    cases hqe : q.isEmpty
    · rfl
    · exact absurd ((String.isEmpty_iff q).mp hqe) hq
  refine ⟨?_, ?_, ?_⟩
  · simp [get_users_by_name, hne]
  · intro r
    simp only [get_users_by_name, hne, Bool.false_eq_true, if_false, responseRecords]
    rw [List.mem_map_of_injective serialize_record_inj, List.mem_filter]
    rw [ilike_pct_iff q r.Name hm]
  · intro d hd
    simp only [get_users_by_name, hne, Bool.false_eq_true, if_false, responseRecords,
      List.mem_map, List.mem_filter] at hd
    obtain ⟨r, ⟨hr, hil⟩, rfl⟩ := hd
    exact ⟨r, hr, (ilike_pct_iff q r.Name hm).mp hil, rfl⟩

/-- C5 witness: the record named Alice is returned for the query
`name=ali`, via the amended theorem applied at q = "ali" over the store
holding Alice. -/
theorem name_filter_ci_substring_witness :
    ("ali" : String) ≠ "" ∧ (∀ c ∈ "ali".toList, c ≠ '%' ∧ c ≠ '_' ∧ c ≠ '\\') ∧
    serialize_record alice ∈ responseRecords (get_users_by_name (some "ali") [alice]) :=
  ⟨by decide, by decide,
   ((name_filter_ci_substring "ali" [alice] (by decide) (by decide)).2.1 alice).mpr
     ⟨by simp, by decide⟩⟩

/-- C7: deleting a stored employee_id (under the primary-key constraint)
succeeds with 200 and removes the record: afterwards no record carries
that id, a fetch by that id returns an empty 200 result, and a second
delete of the same id returns 404 without changing the store. -/
theorem delete_user_removes (emp_id : Int) (store : Store) (r : UserInfo)
    (hwf : uniqueIds store) (hr : r ∈ store) (hk : r.EmployeeID = emp_id) :
    (delete_user emp_id store).status = 200 ∧
    (∀ s ∈ (delete_user emp_id store).store, s.EmployeeID ≠ emp_id) ∧
    responseRecords (get_single_record (some emp_id) (delete_user emp_id store).store) = [] ∧
    (get_single_record (some emp_id) (delete_user emp_id store).store).status = 200 ∧
    (delete_user emp_id (delete_user emp_id store).store).status = 404 ∧
    (delete_user emp_id (delete_user emp_id store).store).store =
      (delete_user emp_id store).store := by
  have hf := find_unique store emp_id r hwf hr hk
  have hstore : (delete_user emp_id store).store =
      store.eraseP (fun s => s.EmployeeID == emp_id) := by
    simp [delete_user, hf]
  have hfree := eraseP_id_free store emp_id hwf
  have hf2 : (store.eraseP (fun s => s.EmployeeID == emp_id)).find?
      (fun s => s.EmployeeID == emp_id) = none :=
    List.find?_eq_none.mpr (fun x hx => by simp [hfree x hx])
  refine ⟨?_, ?_, ?_, ?_, ?_, ?_⟩
  · simp [delete_user, hf]
  · rw [hstore]
    exact hfree
  · rw [hstore]
    simp only [get_single_record, responseRecords]
    rw [List.filter_eq_nil_iff.mpr (fun x hx => by simp [hfree x hx])]
    rfl
  · rfl
  · rw [hstore]
    simp [delete_user, hf2]
  · rw [hstore]
    simp [delete_user, hf2]

/-- C7 witness: the delete theorem applied to the two-record store holding
Sam (id 1) and Alice (id 2), deleting id 1. -/
theorem delete_user_removes_witness :
    uniqueIds [sam, alice] ∧ sam ∈ [sam, alice] ∧ sam.EmployeeID = 1 ∧
    ((delete_user 1 [sam, alice]).status = 200 ∧
     (∀ s ∈ (delete_user 1 [sam, alice]).store, s.EmployeeID ≠ 1) ∧
     responseRecords (get_single_record (some 1) (delete_user 1 [sam, alice]).store) = [] ∧
     (get_single_record (some 1) (delete_user 1 [sam, alice]).store).status = 200 ∧
     (delete_user 1 (delete_user 1 [sam, alice]).store).status = 404 ∧
     (delete_user 1 (delete_user 1 [sam, alice]).store).store =
       (delete_user 1 [sam, alice]).store) :=
  ⟨by simp [uniqueIds]; decide, by simp, by decide,
   delete_user_removes 1 [sam, alice] sam (by simp [uniqueIds]; decide) (by simp) (by decide)⟩

/-- C8: of the seven filtered-read endpoints, exactly the gender filter and
the name filter reject an absent required query parameter with a 400
message response, emitting no events and in particular touching the store
with no query; the employee-name and employee-id filters answer 200 even
with the parameter absent, and the three parameterless filters
(experience, india, kids) always answer 200. -/
theorem missing_param_exactly_two (store : Store) :
    ((get_users_by_gender none store).status = 400 ∧
     (get_users_by_gender none store).body = .message "Gender parameter is required" ∧
     (get_users_by_gender none store).events = [] ∧
     Event.query ∉ (get_users_by_gender none store).events) ∧
    ((get_users_by_name none store).status = 400 ∧
     (get_users_by_name none store).body = .message "Name parameter is required" ∧
     (get_users_by_name none store).events = [] ∧
     Event.query ∉ (get_users_by_name none store).events) ∧
    (get_emp_name none store).status = 200 ∧
    (get_single_record none store).status = 200 ∧
    (get_experience_less_than_5 store).status = 200 ∧
    (get_users_from_india store).status = 200 ∧
    (get_kids store).status = 200 := by
  refine ⟨⟨rfl, rfl, rfl, by simp [get_users_by_gender]⟩,
          ⟨rfl, rfl, rfl, by simp [get_users_by_name]⟩, rfl, rfl, rfl, rfl, rfl⟩

/-- C9: with the configured exclusion list empty, the custom-columns
endpoint returns exactly the same array of serialized records, with the
same status, as the list-all endpoint. -/
theorem custom_columns_eq_all (store : Store) :
    (get_custom_columns store).body = (get_records store).body ∧
    (get_custom_columns store).status = (get_records store).status := by
  refine ⟨?_, rfl⟩
  simp [get_custom_columns, get_records, exclude_columns_eq]

/-- C10: the fetch-by-employee-name and fetch-by-employee-id endpoints do
not validate their query parameter: with the parameter absent they still
query the store (a null-valued equality filter that matches no record)
and answer 200 — not 400 — with the empty list of matches. -/
theorem fetch_endpoints_no_validation (store : Store) :
    (get_emp_name none store).status = 200 ∧ (get_emp_name none store).status ≠ 400 ∧
    responseRecords (get_emp_name none store) = [] ∧
    Event.query ∈ (get_emp_name none store).events ∧
    (get_single_record none store).status = 200 ∧
    (get_single_record none store).status ≠ 400 ∧
    responseRecords (get_single_record none store) = [] ∧
    Event.query ∈ (get_single_record none store).events := by
  refine ⟨rfl, by simp [get_emp_name], ?_, ?_, rfl, by simp [get_single_record], ?_, ?_⟩
  · simp [get_emp_name, responseRecords]
  · simp [get_emp_name]
  · simp [get_single_record, responseRecords]
  · simp [get_single_record]

/-- C3 counterexample: the not-found branch of `update_user` makes zero
notifier calls, not exactly one, and the missing-parameter branch of
`get_users_by_gender` returns before the handler body, producing neither
an entry log event nor an exit log event nor any notifier call. -/
theorem handler_side_effects_counterexample :
    notifyCount (update_user 1 ud0 []).events = 0 ∧
    notifyCount (update_user 1 ud0 []).events ≠ 1 ∧
    (get_users_by_gender none []).events = [] := by
  refine ⟨by decide, by decide, by decide⟩

/-- C3 (amended): a handler invocation that reaches the handler body
produces an entry log event and an exit log event, the success path makes
exactly one notifier call (a success notification) and the duplicate-key
exception path of `create_user` exactly one failure notification carrying
the error detail; but the not-found branch of `update_user` and
`delete_user` logs a warning and makes no notifier call, and the
missing-parameter branch of the gender and name filters produces no
events at all. -/
theorem handler_side_effects_amended (store : Store) (k : Int) (ud : UpdateData)
    (cd : CreateData) (r : UserInfo) :
    (Event.logInfo "Entering get_users_from_india function" ∈ (get_users_from_india store).events ∧
     Event.logInfo "Exiting get_users_from_india function" ∈ (get_users_from_india store).events ∧
     (get_users_from_india store).events.filter isNotify =
       [Event.notifySuccess "User Records from India"
         "Users from India have been fetched successfully."]) ∧
    (Event.logInfo "Entering update_user function" ∈
       (update_user r.EmployeeID ud (r :: store)).events ∧
     Event.logInfo "Exiting update_user function" ∈
       (update_user r.EmployeeID ud (r :: store)).events ∧
     (update_user r.EmployeeID ud (r :: store)).events.filter isNotify =
       [Event.notifySuccess "User updated"
         ("User with ID " ++ toString r.EmployeeID ++ " has been updated successfully.")]) ∧
    (Event.logInfo "Entering create_user function" ∈ (create_user cd []).events ∧
     Event.logInfo "Exiting create_user function" ∈ (create_user cd []).events ∧
     (create_user cd []).events.filter isNotify =
       [Event.notifySuccess "User created"
         ("User " ++ cd.name ++ " has been created successfully.")]) ∧
    (Event.logInfo "Entering update_user function" ∈ (update_user k ud []).events ∧
     Event.logInfo "Exiting update_user function" ∈ (update_user k ud []).events ∧
     Event.logWarning ("User with ID " ++ toString k ++ " not found") ∈
       (update_user k ud []).events ∧
     notifyCount (update_user k ud []).events = 0) ∧
    (Event.logInfo "Entering delete_user function" ∈ (delete_user k []).events ∧
     Event.logInfo "Exiting delete_user function" ∈ (delete_user k []).events ∧
     Event.logWarning ("User with ID " ++ toString k ++ " not found") ∈
       (delete_user k []).events ∧
     notifyCount (delete_user k []).events = 0) ∧
    ((get_users_by_gender none store).events = [] ∧
     (get_users_by_name none store).events = []) ∧
    (Event.logInfo "Entering create_user function" ∈
       (create_user cd (toUser cd :: store)).events ∧
     Event.logInfo "Exiting create_user function" ∈
       (create_user cd (toUser cd :: store)).events ∧
     (create_user cd (toUser cd :: store)).events.filter isNotify =
       [Event.notifyFailure "Error creating user" duplicateKeyMsg]) := by
  have hfind : (r :: store).find? (fun s => s.EmployeeID == r.EmployeeID) = some r :=
    List.find?_cons_of_pos _ (by simp)
  have hdup : (toUser cd :: store).any (fun s => s.EmployeeID == cd.emp_id) = true := by
    simp [toUser]
  have hnew : ([] : Store).any (fun s => s.EmployeeID == cd.emp_id) = false := rfl
  refine ⟨?_, ?_, ?_, ?_, ?_, ⟨rfl, rfl⟩, ?_⟩
  · simp [get_users_from_india, isNotify]
  · simp only [update_user, hfind]
    refine ⟨by simp, by simp, by simp [isNotify]⟩
  · simp only [create_user, hnew, Bool.false_eq_true, if_false]
    refine ⟨by simp, by simp, by simp [isNotify]⟩
  · simp only [update_user, List.find?_nil]
    refine ⟨by simp, by simp, by simp, by simp [notifyCount, isNotify]⟩
  · simp only [delete_user, List.find?_nil]
    refine ⟨by simp, by simp, by simp, by simp [notifyCount, isNotify]⟩
  · simp only [create_user, hdup, if_true]
    refine ⟨by simp, by simp, by simp [isNotify]⟩

end UserApp
